import Mathlib

/-!
Shallow embedding of `src/examples/riscv/basic_fpu_force.py` (FORCE-RISCV
example sequence `MainSequence`).  The Python method `generate` queries its
environment (`getOption`, `getGlobalState`), selects an instruction group,
and loops `pickWeighted` / `genInstruction`.  The environment calls are
modelled as oracles; a run is embedded as the linear trace of completed
environment calls together with a success / raised-exception result.
-/

namespace BasicFpuForce

/-- A value of a configuration option as `getOption` can return it: the
claims only distinguish integers from malformed (string) values. -/
inductive Val where
  | vint (n : Int)
  | vstr (s : String)
deriving DecidableEq

/-- Modelled from the spec: an instruction group (the catalog file
`DV/riscv/trees/instruction_tree.py` is not under `src/`) is a weighted
list of instruction identifiers. -/
structure InstrGroup where
  entries : List (String × Nat)
deriving DecidableEq

/-- The identifiers of a group, its weights dropped. -/
def groupIds (g : InstrGroup) : List String := g.entries.map Prod.fst

/-- Modelled from the spec: the catalog exposes the two named groups the
sequence refers to, `RV32F_instructions` and `RV64F_instructions`. -/
structure Catalog where
  RV32F_instructions : InstrGroup
  RV64F_instructions : InstrGroup
deriving DecidableEq

/-- One completed call the sequence makes on its environment, with the
value that call returned; a run trace lists these in execution order. -/
inductive Event where
  | getOption (name : String) (result : Option Val)
  | getGlobalState (name : String) (result : Int)
  | pickWeighted (group : InstrGroup) (result : String)
  | genInstruction (instr : String) (record_id : Int)
deriving DecidableEq

/-- The environment a run executes against: the option store (`none` models
`is_present = false`), the global state, and oracles giving the outcome of
the i-th `pickWeighted` and `genInstruction` call of the run
(`Except.error` models a raised exception). -/
structure Env where
  instruction_count_opt : Option Val
  appRegisterWidth : Int
  pick : Nat → InstrGroup → Except String String
  gen : Nat → String → Except String Int

/-- The outcome of a run: the trace of completed environment calls and
either normal completion or the exception that aborted the run. -/
structure RunOutcome where
  trace : List Event
  result : Except String Unit

/-- Python lines 39-43: `(count_opt, count_opt_valid) = self.getOption(...)`;
if valid the value is used as-is, otherwise `instruction_count = 100`. -/
def resolveCount (opt : Option Val) : Val :=
  match opt with
  | some v => v
  | none => .vint 100

/-- Python `range(instruction_count)` at line 66: an integer n yields
`max n 0` iterations; a non-integer raises `TypeError` at loop entry. -/
def rangeCount : Val → Except String Nat
  | .vint n => .ok n.toNat
  | .vstr _ => .error "TypeError"

/-- The for-loop of `MainSequence.generate` (lines 66-71): `k` iterations
remain, `i` is the index of the next iteration, `tr` the trace so far.
Each iteration makes one `pickWeighted` call then one `genInstruction`
call; a raised exception aborts the run with the trace accumulated so
far (the result of a raising call is not an event). -/
def genLoop (env : Env) (group : InstrGroup) : Nat → Nat → List Event → RunOutcome
  | 0, _, tr => ⟨tr, .ok ()⟩
  | k + 1, i, tr =>
    match env.pick i group with
    | .error e => ⟨tr, .error e⟩
    | .ok the_instruction =>
      match env.gen i the_instruction with
      | .error e => ⟨tr ++ [.pickWeighted group the_instruction], .error e⟩
      | .ok record_id =>
          genLoop env group k (i + 1)
            (tr ++ [.pickWeighted group the_instruction,
                    .genInstruction the_instruction record_id])

/-- `MainSequence.generate`: query the instruction_count option (defaulting
to 100 when absent), query AppRegisterWidth, select `RV32F_instructions`
when the width equals 32 and `RV64F_instructions` otherwise (line 64), then
run the loop over `range(instruction_count)`. -/
def generate (cat : Catalog) (env : Env) : RunOutcome :=
  let countVal := resolveCount env.instruction_count_opt
  let tr : List Event :=
    [.getOption "instruction_count" env.instruction_count_opt,
     .getGlobalState "AppRegisterWidth" env.appRegisterWidth]
  let instruction_group :=
    if env.appRegisterWidth = 32 then cat.RV32F_instructions
    else cat.RV64F_instructions
  match rangeCount countVal with
  | .error e => ⟨tr, .error e⟩
  | .ok n => genLoop env instruction_group n 0 tr

/-- The group `generate` selects at line 64 for a given catalog and width. -/
def selectedGroup (cat : Catalog) (env : Env) : InstrGroup :=
  if env.appRegisterWidth = 32 then cat.RV32F_instructions
  else cat.RV64F_instructions

/-- Is this event a `pickWeighted` call. -/
def isPick : Event → Bool
  | .pickWeighted _ _ => true
  | _ => false

/-- Is this event a `genInstruction` call. -/
def isGen : Event → Bool
  | .genInstruction _ _ => true
  | _ => false

/-- Is this event a configuration query (`getOption` or `getGlobalState`). -/
def isConfigQuery : Event → Bool
  | .getOption _ _ => true
  | .getGlobalState _ _ => true
  | _ => false

/-- How many `pickWeighted` calls a trace records. -/
def numPicks (tr : List Event) : Nat := (tr.filter isPick).length

/-- How many `genInstruction` calls a trace records. -/
def numGens (tr : List Event) : Nat := (tr.filter isGen).length

/-- The instruction identifiers submitted to `genInstruction`, in order. -/
def submittedIds (tr : List Event) : List String :=
  tr.filterMap fun e =>
    match e with
    | .genInstruction s _ => some s
    | _ => none

/-- The group argument of each `pickWeighted` call, in order. -/
def pickedGroups (tr : List Event) : List InstrGroup :=
  tr.filterMap fun e =>
    match e with
    | .pickWeighted g _ => some g
    | _ => none

/-- The events the loop alone appends to the trace. -/
def loopEvents (env : Env) (group : InstrGroup) : Nat → Nat → List Event
  | 0, _ => []
  | k + 1, i =>
    match env.pick i group with
    | .error _ => []
    | .ok s =>
      match env.gen i s with
      | .error _ => [.pickWeighted group s]
      | .ok r => .pickWeighted group s :: .genInstruction s r ::
          loopEvents env group k (i + 1)

/-- The result of the loop alone. -/
def loopResult (env : Env) (group : InstrGroup) : Nat → Nat → Except String Unit
  | 0, _ => .ok ()
  | k + 1, i =>
    match env.pick i group with
    | .error e => .error e
    | .ok s =>
      match env.gen i s with
      | .error e => .error e
      | .ok _ => loopResult env group k (i + 1)

/-- A loop trace alternates matched pick/gen pairs: each `genInstruction`
event directly follows the `pickWeighted` event whose result it submits. -/
def pairedLoop : List Event → Bool
  | [] => true
  | .pickWeighted _ s :: .genInstruction t _ :: rest => s == t && pairedLoop rest
  | _ => false

/-- Did this environment call complete normally (no exception). -/
def exOk {α : Type} : Except String α → Bool
  | .ok _ => true
  | .error _ => false

/-- A concrete two-group catalog used to evaluate the theorems. -/
def cat0 : Catalog :=
  ⟨⟨[("FADD.S##RISCV", 10), ("FMUL.S##RISCV", 5)]⟩,
   ⟨[("FADD.D##RISCV", 10), ("FMUL.D##RISCV", 5)]⟩⟩

/-- A concrete picker honouring the weighted-draw contract: it returns the
first identifier of a non-empty group and raises on an empty one. -/
def pick0 : Nat → InstrGroup → Except String String := fun _ g =>
  match g.entries with
  | [] => .error "selection error"
  | e :: _ => .ok e.1

/-- A concrete backend that always succeeds, numbering its records. -/
def genOk : Nat → String → Except String Int := fun i _ => .ok (Int.ofNat i)

/-- Environment: count option present with value 3, width 64. -/
def env3 : Env := ⟨some (.vint 3), 64, pick0, genOk⟩

/-- Environment: count option present with value 2, width 32. -/
def envW32 : Env := ⟨some (.vint 2), 32, pick0, genOk⟩

/-- Environment: count option absent, width 64. -/
def envNone : Env := ⟨none, 64, pick0, genOk⟩

/-- Environment: count option present with value 0. -/
def envCount0 : Env := ⟨some (.vint 0), 64, pick0, genOk⟩

/-- Environment: count option present with the negative value -7. -/
def envNeg : Env := ⟨some (.vint (-7)), 64, pick0, genOk⟩

/-- Environment: unrecognized register width 16. -/
def envW16 : Env := ⟨some (.vint 1), 16, pick0, genOk⟩

/-- Environment whose picker always raises a selection error, as on an
empty or zero-total-weight group. -/
def envPickFail : Env :=
  ⟨some (.vint 5), 64, fun _ _ => .error "selection error", genOk⟩

/-- Environment identical to `env3` except for the record identifiers the
backend returns. -/
def env3Shift : Env :=
  ⟨some (.vint 3), 64, pick0, fun i _ => .ok (Int.ofNat i + 1000)⟩

lemma genLoop_eq (env : Env) (group : InstrGroup) :
    ∀ (k i : Nat) (tr : List Event),
      genLoop env group k i tr =
        ⟨tr ++ loopEvents env group k i, loopResult env group k i⟩ := by
  intro k
  induction k with
  | zero => intro i tr; simp [genLoop, loopEvents, loopResult]
  | succ k ih =>
    intro i tr
    simp only [genLoop, loopEvents, loopResult]
    cases hp : env.pick i group with
    | error e => simp [hp]
    | ok s =>
      cases hg : env.gen i s with
      | error e => simp [hp, hg]
      | ok r => simp [hp, hg, ih, List.append_assoc]

lemma generate_eq (cat : Catalog) (env : Env) :
    generate cat env =
      match rangeCount (resolveCount env.instruction_count_opt) with
      | .error e =>
        ⟨[.getOption "instruction_count" env.instruction_count_opt,
          .getGlobalState "AppRegisterWidth" env.appRegisterWidth], .error e⟩
      | .ok n =>
        ⟨[.getOption "instruction_count" env.instruction_count_opt,
          .getGlobalState "AppRegisterWidth" env.appRegisterWidth] ++
            loopEvents env (selectedGroup cat env) n 0,
          loopResult env (selectedGroup cat env) n 0⟩ := by
  unfold generate selectedGroup
  cases h : rangeCount (resolveCount env.instruction_count_opt) with
  | error e => simp [h]
  | ok n => simp [h, genLoop_eq]

lemma numPicks_append (a b : List Event) :
    numPicks (a ++ b) = numPicks a + numPicks b := by
  simp [numPicks, List.filter_append]

lemma numGens_append (a b : List Event) :
    numGens (a ++ b) = numGens a + numGens b := by
  simp [numGens, List.filter_append]

lemma submittedIds_append (a b : List Event) :
    submittedIds (a ++ b) = submittedIds a ++ submittedIds b := by
  simp [submittedIds, List.filterMap_append]

lemma pickedGroups_append (a b : List Event) :
    pickedGroups (a ++ b) = pickedGroups a ++ pickedGroups b := by
  simp [pickedGroups, List.filterMap_append]

lemma loopResult_ok_shape (env : Env) (group : InstrGroup) :
    ∀ k i, loopResult env group k i = .ok () →
      numGens (loopEvents env group k i) = k ∧
      numPicks (loopEvents env group k i) = k ∧
      pairedLoop (loopEvents env group k i) = true := by
  intro k
  induction k with
  | zero => intro i _; simp [loopEvents, numGens, numPicks, pairedLoop]
  | succ k ih =>
    intro i hok
    simp only [loopResult] at hok
    cases hp : env.pick i group with
    | error e => simp [hp] at hok
    | ok s =>
      simp only [hp] at hok
      cases hg : env.gen i s with
      | error e => simp [hg] at hok
      | ok r =>
        simp only [hg] at hok
        obtain ⟨h1, h2, h3⟩ := ih (i + 1) hok
        have h1' : (List.filter isGen (loopEvents env group k (i + 1))).length = k := h1
        have h2' : (List.filter isPick (loopEvents env group k (i + 1))).length = k := h2
        refine ⟨?_, ?_, ?_⟩
        · simp [loopEvents, hp, hg, numGens, isGen, List.filter]
          omega
        · simp [loopEvents, hp, hg, numPicks, isPick, List.filter]
          omega
        · simp [loopEvents, hp, hg, pairedLoop, h3]

lemma loopEvents_groups (env : Env) (group : InstrGroup) :
    ∀ k i g, g ∈ pickedGroups (loopEvents env group k i) → g = group := by
  intro k
  induction k with
  | zero => intro i g hg; simp [loopEvents, pickedGroups] at hg
  | succ k ih =>
    intro i g hg
    cases hp : env.pick i group with
    | error e => simp [loopEvents, hp, pickedGroups] at hg
    | ok s =>
      cases hgen : env.gen i s with
      | error e =>
        simp [loopEvents, hp, hgen, pickedGroups] at hg
        exact hg
      | ok r =>
        simp [loopEvents, hp, hgen, pickedGroups] at hg
        rcases hg with h | h
        · exact h
        · exact ih (i + 1) g (by simpa [pickedGroups] using h)

lemma loopEvents_submitted (env : Env) (group : InstrGroup) :
    ∀ k i s, s ∈ submittedIds (loopEvents env group k i) →
      ∃ j, env.pick j group = .ok s := by
  intro k
  induction k with
  | zero => intro i s hs; simp [loopEvents, submittedIds] at hs
  | succ k ih =>
    intro i s hs
    cases hp : env.pick i group with
    | error e => simp [loopEvents, hp, submittedIds] at hs
    | ok t =>
      cases hgen : env.gen i t with
      | error e => simp [loopEvents, hp, hgen, submittedIds] at hs
      | ok r =>
        simp [loopEvents, hp, hgen, submittedIds] at hs
        rcases hs with h | h
        · exact ⟨i, h ▸ hp⟩
        · exact ih (i + 1) s (by simpa [submittedIds] using h)

lemma loopEvents_no_config (env : Env) (group : InstrGroup) :
    ∀ k i e, e ∈ loopEvents env group k i → isConfigQuery e = false := by
  intro k
  induction k with
  | zero => intro i e he; simp [loopEvents] at he
  | succ k ih =>
    intro i e he
    cases hp : env.pick i group with
    | error a => simp [loopEvents, hp] at he
    | ok s =>
      cases hg : env.gen i s with
      | error a =>
        simp [loopEvents, hp, hg] at he
        simp [he, isConfigQuery]
      | ok r =>
        simp [loopEvents, hp, hg] at he
        rcases he with h | h | h
        · simp [h, isConfigQuery]
        · simp [h, isConfigQuery]
        · exact ih (i + 1) e h

lemma loop_record_blind (env1 env2 : Env) (group : InstrGroup)
    (hpick : env1.pick = env2.pick)
    (hgen : ∀ j s, exOk (env1.gen j s) = exOk (env2.gen j s)) :
    ∀ k i,
      submittedIds (loopEvents env1 group k i) =
        submittedIds (loopEvents env2 group k i) ∧
      numPicks (loopEvents env1 group k i) =
        numPicks (loopEvents env2 group k i) ∧
      numGens (loopEvents env1 group k i) =
        numGens (loopEvents env2 group k i) := by
  intro k
  induction k with
  | zero => intro i; simp [loopEvents]
  | succ k ih =>
    intro i
    cases hp : env1.pick i group with
    | error e =>
      have hp2 : env2.pick i group = Except.error e := by rw [← hpick]; exact hp
      simp [loopEvents, hp, hp2]
    | ok s =>
      have hp2 : env2.pick i group = Except.ok s := by rw [← hpick]; exact hp
      have hok := hgen i s
      cases hg1 : env1.gen i s with
      | error e1 =>
        cases hg2 : env2.gen i s with
        | error e2 =>
          simp [loopEvents, hp, hp2, hg1, hg2, submittedIds, numPicks, numGens,
            isPick, isGen, List.filter]
        | ok r2 => rw [hg1, hg2] at hok; simp [exOk] at hok
      | ok r1 =>
        cases hg2 : env2.gen i s with
        | error e2 => rw [hg1, hg2] at hok; simp [exOk] at hok
        | ok r2 =>
          obtain ⟨ha, hb, hc⟩ := ih (i + 1)
          have hb' : (List.filter isPick (loopEvents env1 group k (i + 1))).length =
            (List.filter isPick (loopEvents env2 group k (i + 1))).length := hb
          have hc' : (List.filter isGen (loopEvents env1 group k (i + 1))).length =
            (List.filter isGen (loopEvents env2 group k (i + 1))).length := hc
          refine ⟨?_, ?_, ?_⟩
          · simp [loopEvents, hp, hp2, hg1, hg2, submittedIds]
            simpa [submittedIds] using ha
          · simp [loopEvents, hp, hp2, hg1, hg2, numPicks, isPick, List.filter, hb']
          · simp [loopEvents, hp, hp2, hg1, hg2, numGens, isGen, List.filter, hc']

lemma loop_fail_pick (env : Env) (group : InstrGroup) (e : String) :
    ∀ k m i, m < k →
      (∀ j, j < m → ∃ s r, env.pick (i + j) group = .ok s ∧
        env.gen (i + j) s = .ok r) →
      env.pick (i + m) group = .error e →
      loopResult env group k i = .error e ∧
      numGens (loopEvents env group k i) = m ∧
      numPicks (loopEvents env group k i) = m := by
  intro k
  induction k with
  | zero => intro m i hm; omega
  | succ k ih =>
    intro m i hm hprev hfail
    cases m with
    | zero =>
      have hp : env.pick i group = .error e := by simpa using hfail
      simp [loopResult, loopEvents, hp, numGens, numPicks]
    | succ m =>
      obtain ⟨s, r, hps, hgs⟩ := hprev 0 (by omega)
      have hps' : env.pick i group = .ok s := by simpa using hps
      have hgs' : env.gen i s = .ok r := by simpa using hgs
      obtain ⟨hr, hg, hpk⟩ := ih m (i + 1) (by omega)
        (fun j hj => by
          have e1 : i + 1 + j = i + (j + 1) := by omega
          rw [e1]; exact hprev (j + 1) (by omega))
        (by
          have e1 : i + 1 + m = i + (m + 1) := by omega
          rw [e1]; exact hfail)
      have hg' : (List.filter isGen (loopEvents env group k (i + 1))).length = m := hg
      have hpk' : (List.filter isPick (loopEvents env group k (i + 1))).length = m := hpk
      refine ⟨?_, ?_, ?_⟩
      · simp [loopResult, hps', hgs', hr]
      · simp [loopEvents, hps', hgs', numGens, isGen, List.filter, hg']
      · simp [loopEvents, hps', hgs', numPicks, isPick, List.filter, hpk']

lemma loop_fail_gen (env : Env) (group : InstrGroup) (s : String) (e : String) :
    ∀ k m i, m < k →
      (∀ j, j < m → ∃ t r, env.pick (i + j) group = .ok t ∧
        env.gen (i + j) t = .ok r) →
      env.pick (i + m) group = .ok s →
      env.gen (i + m) s = .error e →
      loopResult env group k i = .error e ∧
      numGens (loopEvents env group k i) = m ∧
      numPicks (loopEvents env group k i) = m + 1 := by
  intro k
  induction k with
  | zero => intro m i hm; omega
  | succ k ih =>
    intro m i hm hprev hpick hfail
    cases m with
    | zero =>
      have hp : env.pick i group = .ok s := by simpa using hpick
      have hg : env.gen i s = .error e := by simpa using hfail
      simp [loopResult, loopEvents, hp, hg, numGens, numPicks, isGen, isPick,
        List.filter]
    | succ m =>
      obtain ⟨t, r, hps, hgs⟩ := hprev 0 (by omega)
      have hps' : env.pick i group = .ok t := by simpa using hps
      have hgs' : env.gen i t = .ok r := by simpa using hgs
      obtain ⟨hr, hg, hpk⟩ := ih m (i + 1) (by omega)
        (fun j hj => by
          have e1 : i + 1 + j = i + (j + 1) := by omega
          rw [e1]; exact hprev (j + 1) (by omega))
        (by
          have e1 : i + 1 + m = i + (m + 1) := by omega
          rw [e1]; exact hpick)
        (by
          have e1 : i + 1 + m = i + (m + 1) := by omega
          rw [e1]; exact hfail)
      have hg' : (List.filter isGen (loopEvents env group k (i + 1))).length = m := hg
      have hpk' :
          (List.filter isPick (loopEvents env group k (i + 1))).length = m + 1 := hpk
      refine ⟨?_, ?_, ?_⟩
      · simp [loopResult, hps', hgs', hr]
      · simp [loopEvents, hps', hgs', numGens, isGen, List.filter, hg']
      · simp [loopEvents, hps', hgs', numPicks, isPick, List.filter, hpk']

lemma generate_ok_eq (cat : Catalog) (env : Env) (n : Nat)
    (h : rangeCount (resolveCount env.instruction_count_opt) = .ok n) :
    generate cat env =
      ⟨[.getOption "instruction_count" env.instruction_count_opt,
        .getGlobalState "AppRegisterWidth" env.appRegisterWidth] ++
          loopEvents env (selectedGroup cat env) n 0,
        loopResult env (selectedGroup cat env) n 0⟩ := by
  rw [generate_eq, h]

lemma generate_err_eq (cat : Catalog) (env : Env) (e : String)
    (h : rangeCount (resolveCount env.instruction_count_opt) = .error e) :
    generate cat env =
      ⟨[.getOption "instruction_count" env.instruction_count_opt,
        .getGlobalState "AppRegisterWidth" env.appRegisterWidth], .error e⟩ := by
  rw [generate_eq, h]

lemma numPicks_cfg (o : Option Val) (w : Int) :
    numPicks [Event.getOption "instruction_count" o,
      Event.getGlobalState "AppRegisterWidth" w] = 0 := rfl

lemma numGens_cfg (o : Option Val) (w : Int) :
    numGens [Event.getOption "instruction_count" o,
      Event.getGlobalState "AppRegisterWidth" w] = 0 := rfl

lemma submittedIds_cfg (o : Option Val) (w : Int) :
    submittedIds [Event.getOption "instruction_count" o,
      Event.getGlobalState "AppRegisterWidth" w] = [] := rfl

lemma pickedGroups_cfg (o : Option Val) (w : Int) :
    pickedGroups [Event.getOption "instruction_count" o,
      Event.getGlobalState "AppRegisterWidth" w] = [] := rfl

lemma generate_groups_sel (cat : Catalog) (env : Env) :
    ∀ g ∈ pickedGroups (generate cat env).trace, g = selectedGroup cat env := by
  intro g hg
  cases h : rangeCount (resolveCount env.instruction_count_opt) with
  | error e =>
    rw [generate_err_eq cat env e h] at hg
    simp [pickedGroups_cfg] at hg
  | ok n =>
    rw [generate_ok_eq cat env n h] at hg
    simp only [pickedGroups_append, pickedGroups_cfg, List.nil_append] at hg
    exact loopEvents_groups env (selectedGroup cat env) n 0 g hg

lemma generate_submitted_from_pick (cat : Catalog) (env : Env) :
    ∀ s ∈ submittedIds (generate cat env).trace,
      ∃ j, env.pick j (selectedGroup cat env) = .ok s := by
  intro s hs
  cases h : rangeCount (resolveCount env.instruction_count_opt) with
  | error e =>
    rw [generate_err_eq cat env e h] at hs
    simp [submittedIds_cfg] at hs
  | ok n =>
    rw [generate_ok_eq cat env n h] at hs
    simp only [submittedIds_append, submittedIds_cfg, List.nil_append] at hs
    exact loopEvents_submitted env (selectedGroup cat env) n 0 s hs

lemma loop_ext (env1 env2 : Env) (hp : env1.pick = env2.pick)
    (hg : env1.gen = env2.gen) (g : InstrGroup) :
    ∀ k i, loopEvents env1 g k i = loopEvents env2 g k i ∧
      loopResult env1 g k i = loopResult env2 g k i := by
  intro k
  induction k with
  | zero => intro i; simp [loopEvents, loopResult]
  | succ k ih =>
    intro i
    obtain ⟨he, hr⟩ := ih (i + 1)
    constructor <;> simp only [loopEvents, loopResult, hp, hg, he, hr]

lemma run_nonpos_count (cat : Catalog) (env : Env) (z : Int)
    (hopt : env.instruction_count_opt = some (.vint z)) (hz : z ≤ 0) :
    generate cat env =
      ⟨[.getOption "instruction_count" env.instruction_count_opt,
        .getGlobalState "AppRegisterWidth" env.appRegisterWidth], .ok ()⟩ := by
  have h : rangeCount (resolveCount env.instruction_count_opt) = .ok 0 := by
    simp [hopt, resolveCount, rangeCount, Int.toNat_of_nonpos hz]
  rw [generate_ok_eq cat env 0 h]
  simp [loopEvents, loopResult]

lemma run_str_count (cat : Catalog) (env : Env) (s : String)
    (hopt : env.instruction_count_opt = some (.vstr s)) :
    generate cat env =
      ⟨[.getOption "instruction_count" env.instruction_count_opt,
        .getGlobalState "AppRegisterWidth" env.appRegisterWidth],
        .error "TypeError"⟩ := by
  have h : rangeCount (resolveCount env.instruction_count_opt) =
      .error "TypeError" := by
    simp [hopt, resolveCount, rangeCount]
  exact generate_err_eq cat env "TypeError" h

/-- Claim C1: for every positive integer N returned by
getOption("instruction_count") with is_present true, a run of generate that
completes without an exception calls genInstruction exactly N times. -/
theorem C1_count_fidelity (cat : Catalog) (env : Env) (N : Nat) (hpos : 0 < N)
    (hopt : env.instruction_count_opt = some (.vint (N : Int)))
    (hok : (generate cat env).result = .ok ()) :
    numGens (generate cat env).trace = N := by
  have h : rangeCount (resolveCount env.instruction_count_opt) = .ok N := by
    simp [hopt, resolveCount, rangeCount]
  rw [generate_ok_eq cat env N h] at hok ⊢
  obtain ⟨h1, _, _⟩ :=
    loopResult_ok_shape env (selectedGroup cat env) N 0 hok
  have h1h : (List.filter isGen (loopEvents env (selectedGroup cat env) N 0)).length = N := h1
  simp [numGens, isGen, List.filter, h1h]

/-- Witness for C1: with the count option set to 3 the completed run makes
exactly 3 genInstruction calls. -/
theorem C1_count_fidelity_witness : numGens (generate cat0 env3).trace = 3 :=
  C1_count_fidelity cat0 env3 3 (by decide) rfl rfl

/-- Claim C5: when getOption("instruction_count") reports the option as
absent, generate uses the default count of 100 and a completed run performs
exactly 100 genInstruction calls. -/
theorem C5_default_count (cat : Catalog) (env : Env)
    (hopt : env.instruction_count_opt = none)
    (hok : (generate cat env).result = .ok ()) :
    numGens (generate cat env).trace = 100 := by
  have h : rangeCount (resolveCount env.instruction_count_opt) = .ok 100 := by
    simp [hopt, resolveCount, rangeCount]
  rw [generate_ok_eq cat env 100 h] at hok ⊢
  obtain ⟨h1, _, _⟩ :=
    loopResult_ok_shape env (selectedGroup cat env) 100 0 hok
  have h1h : (List.filter isGen (loopEvents env (selectedGroup cat env) 100 0)).length = 100 := h1
  simp [numGens, isGen, List.filter, h1h]

/-- Witness for C5: with the option absent the completed run makes exactly
100 genInstruction calls. -/
theorem C5_default_count_witness : numGens (generate cat0 envNone).trace = 100 :=
  C5_default_count cat0 envNone rfl rfl

/-- Claim C8: in every run, getOption("instruction_count") and
getGlobalState("AppRegisterWidth") are each queried exactly once, both
before the first pickWeighted or genInstruction call: the trace starts with
exactly those two queries and no configuration query occurs later. -/
theorem C8_config_resolved_once (cat : Catalog) (env : Env) :
    ∃ rest, (generate cat env).trace =
      Event.getOption "instruction_count" env.instruction_count_opt ::
      Event.getGlobalState "AppRegisterWidth" env.appRegisterWidth :: rest ∧
      ∀ e ∈ rest, isConfigQuery e = false := by
  cases h : rangeCount (resolveCount env.instruction_count_opt) with
  | error e =>
    refine ⟨[], ?_, ?_⟩
    · rw [generate_err_eq cat env e h]
    · intro e he; simp at he
  | ok n =>
    refine ⟨loopEvents env (selectedGroup cat env) n 0, ?_, ?_⟩
    · rw [generate_ok_eq cat env n h]; rfl
    · exact loopEvents_no_config env (selectedGroup cat env) n 0

/-- Claim C10: if the instruction_count option is present with an integer
value at most zero, generate completes without an exception, makes zero
pickWeighted and zero genInstruction calls, and still queries
getGlobalState("AppRegisterWidth"). -/
theorem C10_nonpositive_count_runs_empty (cat : Catalog) (env : Env) (z : Int)
    (hopt : env.instruction_count_opt = some (.vint z)) (hz : z ≤ 0) :
    (generate cat env).result = .ok () ∧
    numPicks (generate cat env).trace = 0 ∧
    numGens (generate cat env).trace = 0 ∧
    Event.getGlobalState "AppRegisterWidth" env.appRegisterWidth ∈
      (generate cat env).trace := by
  rw [run_nonpos_count cat env z hopt hz]
  refine ⟨rfl, rfl, rfl, ?_⟩
  simp

/-- Witness for C10: with the count option set to -7 the run completes
normally, makes no pick or generation call, and the width query is in the
trace. -/
theorem C10_nonpositive_count_witness :
    (generate cat0 envNeg).result = .ok () ∧
    numPicks (generate cat0 envNeg).trace = 0 ∧
    numGens (generate cat0 envNeg).trace = 0 ∧
    Event.getGlobalState "AppRegisterWidth" envNeg.appRegisterWidth ∈
      (generate cat0 envNeg).trace :=
  C10_nonpositive_count_runs_empty cat0 envNeg (-7) rfl (by decide)

lemma pick0_mem (i : Nat) (g : InstrGroup) (s : String)
    (h : pick0 i g = .ok s) : s ∈ groupIds g := by
  unfold pick0 at h
  cases hg : g.entries with
  | nil => rw [hg] at h; simp at h
  | cons a t =>
    rw [hg] at h
    simp at h
    simp [groupIds, hg, ← h]

/-- Claim C2: when the picker honours its contract of returning an
identifier of the group it is given, a run with AppRegisterWidth 32 submits
only identifiers of RV32F_instructions, a run with width 64 submits only
identifiers of RV64F_instructions, and every pickWeighted call of the run
uses that same group. -/
theorem C2_width_selects_group (cat : Catalog) (env : Env)
    (hcontract : ∀ i g s, env.pick i g = .ok s → s ∈ groupIds g) :
    (env.appRegisterWidth = 32 →
      (∀ s ∈ submittedIds (generate cat env).trace,
        s ∈ groupIds cat.RV32F_instructions) ∧
      ∀ g ∈ pickedGroups (generate cat env).trace,
        g = cat.RV32F_instructions) ∧
    (env.appRegisterWidth = 64 →
      (∀ s ∈ submittedIds (generate cat env).trace,
        s ∈ groupIds cat.RV64F_instructions) ∧
      ∀ g ∈ pickedGroups (generate cat env).trace,
        g = cat.RV64F_instructions) := by
  constructor
  · intro h32
    have hsel : selectedGroup cat env = cat.RV32F_instructions := by
      simp [selectedGroup, h32]
    constructor
    · intro s hs
      obtain ⟨j, hj⟩ := generate_submitted_from_pick cat env s hs
      have := hcontract j (selectedGroup cat env) s hj
      rwa [hsel] at this
    · intro g hg
      have := generate_groups_sel cat env g hg
      rwa [hsel] at this
  · intro h64
    have hsel : selectedGroup cat env = cat.RV64F_instructions := by
      simp [selectedGroup, h64]
    constructor
    · intro s hs
      obtain ⟨j, hj⟩ := generate_submitted_from_pick cat env s hs
      have := hcontract j (selectedGroup cat env) s hj
      rwa [hsel] at this
    · intro g hg
      have := generate_groups_sel cat env g hg
      rwa [hsel] at this

/-- Witness for C2: the contract-honouring picker pick0 with width 32. -/
theorem C2_width_selects_group_witness :
    (envW32.appRegisterWidth = 32 →
      (∀ s ∈ submittedIds (generate cat0 envW32).trace,
        s ∈ groupIds cat0.RV32F_instructions) ∧
      ∀ g ∈ pickedGroups (generate cat0 envW32).trace,
        g = cat0.RV32F_instructions) ∧
    (envW32.appRegisterWidth = 64 →
      (∀ s ∈ submittedIds (generate cat0 envW32).trace,
        s ∈ groupIds cat0.RV64F_instructions) ∧
      ∀ g ∈ pickedGroups (generate cat0 envW32).trace,
        g = cat0.RV64F_instructions) :=
  C2_width_selects_group cat0 envW32 (fun i g s h => pick0_mem i g s h)

/-- Claim C6: a completed run's trace is exactly the two configuration
queries followed by the loop events, which strictly alternate: each
iteration makes one pickWeighted call and the genInstruction call that
immediately follows it submits precisely the identifier that pickWeighted
returned; the run makes exactly n such pairs in sequential order. -/
theorem C6_strictly_sequential_iterations (cat : Catalog) (env : Env) (n : Nat)
    (hn : rangeCount (resolveCount env.instruction_count_opt) = .ok n)
    (hok : (generate cat env).result = .ok ()) :
    (generate cat env).trace =
      [Event.getOption "instruction_count" env.instruction_count_opt,
       Event.getGlobalState "AppRegisterWidth" env.appRegisterWidth] ++
        loopEvents env (selectedGroup cat env) n 0 ∧
    pairedLoop (loopEvents env (selectedGroup cat env) n 0) = true ∧
    numPicks (generate cat env).trace = n ∧
    numGens (generate cat env).trace = n := by
  rw [generate_ok_eq cat env n hn] at hok ⊢
  obtain ⟨h1, h2, h3⟩ :=
    loopResult_ok_shape env (selectedGroup cat env) n 0 hok
  have h1h : (List.filter isGen (loopEvents env (selectedGroup cat env) n 0)).length = n := h1
  have h2h : (List.filter isPick (loopEvents env (selectedGroup cat env) n 0)).length = n := h2
  refine ⟨rfl, h3, ?_, ?_⟩
  · simp [numPicks, isPick, List.filter, h2h]
  · simp [numGens, isGen, List.filter, h1h]

/-- Witness for C6: the run with count 3 produces the alternating trace. -/
theorem C6_strictly_sequential_iterations_witness :
    (generate cat0 env3).trace =
      [Event.getOption "instruction_count" env3.instruction_count_opt,
       Event.getGlobalState "AppRegisterWidth" env3.appRegisterWidth] ++
        loopEvents env3 (selectedGroup cat0 env3) 3 0 ∧
    pairedLoop (loopEvents env3 (selectedGroup cat0 env3) 3 0) = true ∧
    numPicks (generate cat0 env3).trace = 3 ∧
    numGens (generate cat0 env3).trace = 3 :=
  C6_strictly_sequential_iterations cat0 env3 3 rfl rfl

/-- Claim C7: the record identifiers genInstruction returns have no effect
on the run: two executions receiving identical option, global-state and
pickWeighted responses, whose genInstruction calls succeed and fail at the
same points but return arbitrarily different record identifiers, submit
the identical sequence of identifiers and perform the same number of
iterations. -/
theorem C7_record_id_has_no_effect (cat : Catalog) (env1 env2 : Env)
    (hopt : env1.instruction_count_opt = env2.instruction_count_opt)
    (hwidth : env1.appRegisterWidth = env2.appRegisterWidth)
    (hpick : env1.pick = env2.pick)
    (hgen : ∀ j s, exOk (env1.gen j s) = exOk (env2.gen j s)) :
    submittedIds (generate cat env1).trace =
      submittedIds (generate cat env2).trace ∧
    numPicks (generate cat env1).trace = numPicks (generate cat env2).trace ∧
    numGens (generate cat env1).trace = numGens (generate cat env2).trace := by
  have hsel : selectedGroup cat env1 = selectedGroup cat env2 := by
    simp [selectedGroup, hwidth]
  cases h : rangeCount (resolveCount env1.instruction_count_opt) with
  | error e =>
    have h2 : rangeCount (resolveCount env2.instruction_count_opt) = .error e := by
      rw [← hopt]; exact h
    rw [generate_err_eq cat env1 e h, generate_err_eq cat env2 e h2]
    exact ⟨rfl, rfl, rfl⟩
  | ok n =>
    have h2 : rangeCount (resolveCount env2.instruction_count_opt) = .ok n := by
      rw [← hopt]; exact h
    rw [generate_ok_eq cat env1 n h, generate_ok_eq cat env2 n h2]
    obtain ⟨ha, hb, hc⟩ :=
      loop_record_blind env1 env2 (selectedGroup cat env2) hpick hgen n 0
    rw [hsel]
    refine ⟨?_, ?_, ?_⟩
    · simp only [submittedIds_append, submittedIds_cfg, List.nil_append, ha]
    · have hbh : (List.filter isPick (loopEvents env1 (selectedGroup cat env2) n 0)).length =
        (List.filter isPick (loopEvents env2 (selectedGroup cat env2) n 0)).length := hb
      simp [numPicks, isPick, List.filter, hbh]
    · have hch : (List.filter isGen (loopEvents env1 (selectedGroup cat env2) n 0)).length =
        (List.filter isGen (loopEvents env2 (selectedGroup cat env2) n 0)).length := hc
      simp [numGens, isGen, List.filter, hch]

/-- Witness for C7: two environments whose backends differ only in the
record identifiers they return produce the same submissions and counts. -/
theorem C7_record_id_has_no_effect_witness :
    submittedIds (generate cat0 env3).trace =
      submittedIds (generate cat0 env3Shift).trace ∧
    numPicks (generate cat0 env3).trace =
      numPicks (generate cat0 env3Shift).trace ∧
    numGens (generate cat0 env3).trace =
      numGens (generate cat0 env3Shift).trace :=
  C7_record_id_has_no_effect cat0 env3 env3Shift rfl rfl rfl
    (fun j s => rfl)

/-- Claim C9: if all iterations before iteration m complete and the m-th
pickWeighted call raises, the run propagates that exception with exactly m
genInstruction submissions and m pickWeighted calls made; if instead the
m-th pickWeighted call returns and the m-th genInstruction call raises,
the run propagates that exception with exactly m submissions and m+1
pickWeighted calls.  In particular a picker that raises a selection error
on the first iteration yields zero submissions. -/
theorem C9_exception_propagates_no_retry (cat : Catalog) (env : Env)
    (n m : Nat)
    (hn : rangeCount (resolveCount env.instruction_count_opt) = .ok n)
    (hm : m < n)
    (hprev : ∀ j, j < m → ∃ s r, env.pick j (selectedGroup cat env) = .ok s ∧
      env.gen j s = .ok r) :
    (∀ e, env.pick m (selectedGroup cat env) = .error e →
      (generate cat env).result = .error e ∧
      numGens (generate cat env).trace = m ∧
      numPicks (generate cat env).trace = m) ∧
    (∀ s e, env.pick m (selectedGroup cat env) = .ok s →
      env.gen m s = .error e →
      (generate cat env).result = .error e ∧
      numGens (generate cat env).trace = m ∧
      numPicks (generate cat env).trace = m + 1) := by
  have hprev0 : ∀ j, j < m → ∃ s r, env.pick (0 + j) (selectedGroup cat env) = .ok s ∧
      env.gen (0 + j) s = .ok r := by
    intro j hj
    simpa using hprev j hj
  constructor
  · intro e hfail
    obtain ⟨hr, hg, hp⟩ := loop_fail_pick env (selectedGroup cat env) e n m 0 hm
      hprev0 (by simpa using hfail)
    rw [generate_ok_eq cat env n hn]
    have hgh : (List.filter isGen (loopEvents env (selectedGroup cat env) n 0)).length = m := hg
    have hph : (List.filter isPick (loopEvents env (selectedGroup cat env) n 0)).length = m := hp
    refine ⟨hr, ?_, ?_⟩
    · simp [numGens, isGen, List.filter, hgh]
    · simp [numPicks, isPick, List.filter, hph]
  · intro s e hpok hfail
    obtain ⟨hr, hg, hp⟩ := loop_fail_gen env (selectedGroup cat env) s e n m 0 hm
      hprev0 (by simpa using hpok) (by simpa using hfail)
    rw [generate_ok_eq cat env n hn]
    have hgh : (List.filter isGen (loopEvents env (selectedGroup cat env) n 0)).length = m := hg
    have hph : (List.filter isPick (loopEvents env (selectedGroup cat env) n 0)).length = m + 1 := hp
    refine ⟨hr, ?_, ?_⟩
    · simp [numGens, isGen, List.filter, hgh]
    · simp [numPicks, isPick, List.filter, hph]

/-- Witness for C9: a picker that raises a selection error on the very
first iteration aborts the run with zero submissions. -/
theorem C9_exception_propagates_witness :
    (∀ e, envPickFail.pick 0 (selectedGroup cat0 envPickFail) = .error e →
      (generate cat0 envPickFail).result = .error e ∧
      numGens (generate cat0 envPickFail).trace = 0 ∧
      numPicks (generate cat0 envPickFail).trace = 0) ∧
    (∀ s e, envPickFail.pick 0 (selectedGroup cat0 envPickFail) = .ok s →
      envPickFail.gen 0 s = .error e →
      (generate cat0 envPickFail).result = .error e ∧
      numGens (generate cat0 envPickFail).trace = 0 ∧
      numPicks (generate cat0 envPickFail).trace = 0 + 1) :=
  C9_exception_propagates_no_retry cat0 envPickFail 5 0 rfl (by decide)
    (fun j hj => absurd hj (by omega))

/-- Counterexample to claim C3: with instruction_count present and equal
to 0 the run raises nothing — it completes normally with zero
genInstruction calls, rather than reporting a configuration error. -/
theorem C3_counterexample_count_zero :
    (generate cat0 envCount0).result = .ok () ∧
    numGens (generate cat0 envCount0).trace = 0 := ⟨rfl, rfl⟩

/-- Claim C3 as amended: an instruction_count value that is an integer at
most zero is used as-is: the loop body runs zero times and generate
completes without raising; a non-integer (string) value raises a TypeError
only when the loop range is built — after the width query — again with
zero pickWeighted and genInstruction calls.  No configuration error is
raised and no clamping occurs. -/
theorem C3_invalid_count_not_rejected (cat : Catalog) (env : Env) :
    (∀ z : Int, env.instruction_count_opt = some (.vint z) → z ≤ 0 →
      (generate cat env).result = .ok () ∧
      numGens (generate cat env).trace = 0 ∧
      numPicks (generate cat env).trace = 0) ∧
    (∀ s : String, env.instruction_count_opt = some (.vstr s) →
      (generate cat env).result = .error "TypeError" ∧
      numGens (generate cat env).trace = 0 ∧
      numPicks (generate cat env).trace = 0 ∧
      Event.getGlobalState "AppRegisterWidth" env.appRegisterWidth ∈
        (generate cat env).trace) := by
  constructor
  · intro z hopt hz
    rw [run_nonpos_count cat env z hopt hz]
    exact ⟨rfl, rfl, rfl⟩
  · intro s hopt
    rw [run_str_count cat env s hopt]
    refine ⟨rfl, rfl, rfl, ?_⟩
    simp

/-- Counterexample to claim C4: with AppRegisterWidth 16 — neither 32 nor
64 — the run does not abort: it completes normally, makes a genInstruction
call, and its pickWeighted call uses RV64F_instructions. -/
theorem C4_counterexample_width_sixteen :
    (generate cat0 envW16).result = .ok () ∧
    numGens (generate cat0 envW16).trace = 1 ∧
    pickedGroups (generate cat0 envW16).trace = [cat0.RV64F_instructions] :=
  ⟨rfl, rfl, rfl⟩

/-- Claim C4 as amended: a width other than 32 raises no configuration
error; line 64 is a plain two-way conditional, so any such width selects
RV64F_instructions and the run proceeds exactly as it would with width 64:
same result and same submitted identifiers. -/
theorem C4_unrecognized_width_falls_back (cat : Catalog) (env : Env)
    (hw : env.appRegisterWidth ≠ 32) :
    selectedGroup cat env = cat.RV64F_instructions ∧
    (∀ g ∈ pickedGroups (generate cat env).trace, g = cat.RV64F_instructions) ∧
    (generate cat env).result =
      (generate cat { env with appRegisterWidth := 64 }).result ∧
    submittedIds (generate cat env).trace =
      submittedIds (generate cat { env with appRegisterWidth := 64 }).trace := by
  set env64 : Env := { env with appRegisterWidth := 64 } with henv64
  have hsel : selectedGroup cat env = cat.RV64F_instructions := by
    simp [selectedGroup, hw]
  have hsel64 : selectedGroup cat env64 = cat.RV64F_instructions := by
    simp [selectedGroup, henv64]
  have hpx : env.pick = env64.pick := rfl
  have hgx : env.gen = env64.gen := rfl
  refine ⟨hsel, ?_, ?_, ?_⟩
  · intro g hg
    have := generate_groups_sel cat env g hg
    rwa [hsel] at this
  · cases h : rangeCount (resolveCount env.instruction_count_opt) with
    | error e =>
      have h2 : rangeCount (resolveCount env64.instruction_count_opt) = .error e := h
      rw [generate_err_eq cat env e h, generate_err_eq cat env64 e h2]
    | ok n =>
      have h2 : rangeCount (resolveCount env64.instruction_count_opt) = .ok n := h
      rw [generate_ok_eq cat env n h, generate_ok_eq cat env64 n h2]
      obtain ⟨he, hr⟩ := loop_ext env env64 hpx hgx cat.RV64F_instructions n 0
      rw [hsel, hsel64]
      simp only [hr]
  · cases h : rangeCount (resolveCount env.instruction_count_opt) with
    | error e =>
      have h2 : rangeCount (resolveCount env64.instruction_count_opt) = .error e := h
      rw [generate_err_eq cat env e h, generate_err_eq cat env64 e h2]
      simp [submittedIds]
    | ok n =>
      have h2 : rangeCount (resolveCount env64.instruction_count_opt) = .ok n := h
      rw [generate_ok_eq cat env n h, generate_ok_eq cat env64 n h2]
      obtain ⟨he, hr⟩ := loop_ext env env64 hpx hgx cat.RV64F_instructions n 0
      rw [hsel, hsel64]
      simp [submittedIds, he]

/-- Witness for C4 as amended: the width-16 environment. -/
theorem C4_unrecognized_width_witness :
    selectedGroup cat0 envW16 = cat0.RV64F_instructions ∧
    (∀ g ∈ pickedGroups (generate cat0 envW16).trace,
      g = cat0.RV64F_instructions) ∧
    (generate cat0 envW16).result =
      (generate cat0 { envW16 with appRegisterWidth := 64 }).result ∧
    submittedIds (generate cat0 envW16).trace =
      submittedIds (generate cat0 { envW16 with appRegisterWidth := 64 }).trace :=
  C4_unrecognized_width_falls_back cat0 envW16 (by decide)

end BasicFpuForce
